import Mathlib

/-!
Verification of the signal-controller message ingestion and webhook fan-out
pipeline.  The definitions below are a shallow embedding of the Python
sources: src/database/db.py, src/backend/signal_processor.py,
src/backend/webhooks.py, src/backend/security.py and the routers in
src/backend/routers.  Pure functions become Lean functions; the SQLite
tables become explicit lists of rows; network interaction is passed in as
an explicit environment describing the responses the remote side gives.
-/

namespace SignalController

/-! JSON values as handled by the Python json module.  Numbers are
restricted to integers: every number produced by the pipeline under
scrutiny (attachment sizes, timestamps, message ids) is an integer. -/

inductive Json where
  | null
  | bool (b : Bool)
  | num (n : Int)
  | str (s : String)
  | arr (elems : List Json)
  | obj (fields : List (String × Json))

/-- Python truthiness of a JSON value, as used by the sources in
expressions of the shape (json.dumps(x) if x else None). -/
def Json.truthy : Json → Bool
  | .null => false
  | .bool b => b
  | .num n => n != 0
  | .str s => !s.data.isEmpty
  | .arr l => !l.isEmpty
  | .obj l => !l.isEmpty

/-- Python dict.get on a JSON object: first binding of the key, none when
the key is absent or the value is not an object. -/
def Json.get? : Json → String → Option Json
  | .obj fields, k => lookupField fields k
  | _, _ => none
where
  lookupField : List (String × Json) → String → Option Json
    | [], _ => none
    | (k', v) :: rest, k => if k' = k then some v else lookupField rest k

/-- Python equality between an optional JSON value and a string, as in
data.get(key) == token: true exactly when the value is present, is a JSON
string, and equals the token. -/
def pyEqStr : Option Json → String → Bool
  | some (.str s), t => s = t
  | _, _ => false

/-- String escaping used by json.dumps for one character.  The characters
the pipeline actually produces need only the quote, backslash and the
common control characters; other characters pass through unescaped. -/
def escapeChar (c : Char) : List Char :=
  if c = '"' then ['\\', '"']
  else if c = '\\' then ['\\', '\\']
  else if c = '\n' then ['\\', 'n']
  else if c = '\t' then ['\\', 't']
  else if c = '\r' then ['\\', 'r']
  else [c]

def escapeList : List Char → List Char
  | [] => []
  | c :: cs => escapeChar c ++ escapeList cs

mutual

/-- Compact serialization of a JSON value, as json.dumps with separators
(comma, colon) produces: no whitespace, keys and elements in order. -/
def Json.dumpsData : Json → List Char
  | .null => "null".data
  | .bool true => "true".data
  | .bool false => "false".data
  | .num n => (toString n).data
  | .str s => '"' :: (escapeList s.data ++ ['"'])
  | .arr xs => '[' :: (Json.dumpsDataElems xs ++ [']'])
  | .obj fs => Char.ofNat 123 :: (Json.dumpsDataFields fs ++ [Char.ofNat 125])

def Json.dumpsDataElems : List Json → List Char
  | [] => []
  | [x] => Json.dumpsData x
  | x :: y :: xs => Json.dumpsData x ++ ',' :: Json.dumpsDataElems (y :: xs)

def Json.dumpsDataFields : List (String × Json) → List Char
  | [] => []
  | [(k, v)] => '"' :: (escapeList k.data ++ ['"', ':'] ++ Json.dumpsData v)
  | (k, v) :: f :: fs =>
      '"' :: (escapeList k.data ++ ['"', ':'] ++ Json.dumpsData v)
        ++ ',' :: Json.dumpsDataFields (f :: fs)

end

/-- Compact JSON serialization returning a string, the model of
json.dumps(x, separators=(",", ":")). -/
def Json.dumps (j : Json) : String := String.mk (Json.dumpsData j)

/-! A parser for the compact JSON the pipeline stores, the model of
json.loads on the strings this system writes.  It is executable and total
(fuel-indexed); the pipeline only ever re-parses its own compact output,
so no whitespace skipping is needed. -/

def unescapeChar (c : Char) : Option Char :=
  if c = '"' then some '"'
  else if c = '\\' then some '\\'
  else if c = 'n' then some '\n'
  else if c = 't' then some '\t'
  else if c = 'r' then some '\r'
  else none

def parseStringBody : List Char → Option (List Char × List Char)
  | [] => none
  | c :: rest =>
      if c = '"' then some ([], rest)
      else if c = '\\' then
        match rest with
        | [] => none
        | e :: rest2 =>
            match unescapeChar e, parseStringBody rest2 with
            | some u, some (s, r) => some (u :: s, r)
            | _, _ => none
      else
        match parseStringBody rest with
        | some (s, r) => some (c :: s, r)
        | none => none

def takeDigits : List Char → List Char × List Char
  | [] => ([], [])
  | c :: rest =>
      if c.isDigit then
        let (ds, r) := takeDigits rest
        (c :: ds, r)
      else ([], c :: rest)

def digitsToNat (cs : List Char) : Nat :=
  cs.foldl (fun a c => a * 10 + (c.toNat - 48)) 0

mutual

def parseVal : Nat → List Char → Option (Json × List Char)
  | 0, _ => none
  | _ + 1, [] => none
  | fuel + 1, c :: rest =>
      if c = '"' then
        match parseStringBody rest with
        | some (s, r) => some (.str (String.mk s), r)
        | none => none
      else if c = '[' then
        match rest with
        | ']' :: r => some (.arr [], r)
        | _ =>
          match parseElems fuel rest with
          | some (xs, r) => some (.arr xs, r)
          | none => none
      else if c = Char.ofNat 123 then
        match rest with
        | [] => none
        | d :: r =>
          if d = Char.ofNat 125 then some (.obj [], r)
          else
            match parseFields fuel (d :: r) with
            | some (fs, r2) => some (.obj fs, r2)
            | none => none
      else if c = 't' then
        match rest with
        | 'r' :: 'u' :: 'e' :: r => some (.bool true, r)
        | _ => none
      else if c = 'f' then
        match rest with
        | 'a' :: 'l' :: 's' :: 'e' :: r => some (.bool false, r)
        | _ => none
      else if c = 'n' then
        match rest with
        | 'u' :: 'l' :: 'l' :: r => some (.null, r)
        | _ => none
      else if c = '-' then
        match takeDigits rest with
        | ([], _) => none
        | (ds, r) => some (.num (-(digitsToNat ds : Int)), r)
      else if c.isDigit then
        let (ds, r) := takeDigits (c :: rest)
        some (.num (digitsToNat ds : Int), r)
      else none

def parseElems : Nat → List Char → Option (List Json × List Char)
  | 0, _ => none
  | fuel + 1, cs =>
      match parseVal fuel cs with
      | some (x, ',' :: r2) =>
          match parseElems fuel r2 with
          | some (xs, r3) => some (x :: xs, r3)
          | none => none
      | some (x, ']' :: r2) => some ([x], r2)
      | _ => none

def parseFields : Nat → List Char → Option (List (String × Json) × List Char)
  | 0, _ => none
  | fuel + 1, cs =>
      match cs with
      | '"' :: rest =>
        match parseStringBody rest with
        | some (k, ':' :: r2) =>
          match parseVal fuel r2 with
          | some (v, ',' :: r4) =>
            match parseFields fuel r4 with
            | some (fs, r5) => some ((String.mk k, v) :: fs, r5)
            | none => none
          | some (v, d :: r4) =>
            if d = Char.ofNat 125 then some ([(String.mk k, v)], r4) else none
          | _ => none
        | _ => none
      | _ => none

end

/-- Model of json.loads restricted to the compact strings this pipeline
writes: parse a whole value, demanding no trailing input. -/
def Json.parse (s : String) : Option Json :=
  match parseVal (s.data.length + 1) s.data with
  | some (j, []) => some j
  | _ => none

/-! Database model, from src/database/db.py.  The messages and
conversations tables become lists of rows; sqlite autoincrement row ids
become an explicit nextId counter.  Timestamps are abstract naturals: the
CURRENT_TIMESTAMP value of a call is passed in as the parameter now. -/

/-- Row of the messages table (columns relevant to the pipeline;
the processed flag, always 0 at insertion, is omitted). -/
structure MessageRow where
  id : Nat
  sender_number : String
  sender_name : String
  timestamp : Nat
  received_at : Nat
  message_body : String
  attachments : Option String
  raw_data : Option String
  group_id : Option String
  group_name : Option String

/-- Row of the conversations table (the surrogate id and created_at
columns, unused by every code path under scrutiny, are omitted). -/
structure ConversationRow where
  contact_number : String
  contact_name : Option String
  last_message_at : Option Nat
  message_count : Nat
  is_group : Bool
  group_id : Option String

structure DB where
  messages : List MessageRow
  conversations : List ConversationRow
  nextId : Nat

def emptyDB : DB := ⟨[], [], 1⟩

/-- Lookup of a conversations row by its unique contact_number key. -/
def findConv : List ConversationRow → String → Option ConversationRow
  | [], _ => none
  | c :: cs, k => if c.contact_number = k then some c else findConv cs k

def is_group_of (db : DB) (k : String) : Option Bool :=
  (findConv db.conversations k).map (·.is_group)

def message_count_of (db : DB) (k : String) : Option Nat :=
  (findConv db.conversations k).map (·.message_count)

def convExists (db : DB) (k : String) : Bool :=
  (findConv db.conversations k).isSome

/-- SQL COALESCE of the excluded (incoming) value with the existing one. -/
def coalesce : Option α → Option α → Option α
  | some x, _ => some x
  | none, b => b

/-- Python truthiness of an optional string (group_id if group_id else
sender_number patterns). -/
def optTruthy : Option String → Bool
  | some s => !s.data.isEmpty
  | none => false

/-- The conversation key chosen by store_message:
group_id if group_id else sender_number. -/
def conversationKey (group_id : Option String) (sender_number : String) : String :=
  match group_id with
  | some g => if g.data.isEmpty then sender_number else g
  | none => sender_number

/-- The upsert issued by store_message (db.py lines 167 to 176): INSERT a
fresh row with message_count 1, ON CONFLICT overwrite contact_name,
last_message_at, is_group and group_id with the excluded values and add 1
to message_count. -/
def upsertConvStore (convs : List ConversationRow) (cid : String)
    (cname : String) (now : Nat) (isg : Bool) (gid : Option String) :
    List ConversationRow :=
  match convs with
  | [] => [⟨cid, some cname, some now, 1, isg, gid⟩]
  | c :: cs =>
      if c.contact_number = cid then
        ⟨c.contact_number, some cname, some now, c.message_count + 1, isg, gid⟩ :: cs
      else c :: upsertConvStore cs cid cname now isg gid

/-- The upsert issued by update_conversation (db.py lines 360 to 367):
INSERT a fresh row with message_count 1 (is_group defaults to 0), ON
CONFLICT COALESCE the name and timestamp and add 1 to message_count;
is_group and group_id are untouched on conflict. -/
def upsertConvUpdate (convs : List ConversationRow) (cid : String)
    (cn : Option String) (lma : Option Nat) : List ConversationRow :=
  match convs with
  | [] => [⟨cid, cn, lma, 1, false, none⟩]
  | c :: cs =>
      if c.contact_number = cid then
        ⟨c.contact_number, coalesce cn c.contact_name,
          coalesce lma c.last_message_at, c.message_count + 1,
          c.is_group, c.group_id⟩ :: cs
      else c :: upsertConvUpdate cs cid cn lma

/-- Model of the Python expression json.dumps(x) if x else None applied to
the attachments and raw_data arguments of store_message. -/
def jsonDumpsOpt : Option Json → Option String
  | none => none
  | some v => if v.truthy then some (Json.dumps v) else none

/-- Database.store_message (db.py lines 109 to 185): serialize attachments
and raw_data, INSERT one messages row, then upsert the conversations row
keyed by the group id when present (else the sender), and return the new
message id (sqlite lastrowid). -/
def store_message (db : DB) (sender_number sender_name : String)
    (timestamp : Nat) (message_body : String)
    (attachments raw_data : Option Json)
    (group_id group_name : Option String) (now : Nat) : DB × Nat :=
  let attachments_json := jsonDumpsOpt attachments
  let raw_data_json := jsonDumpsOpt raw_data
  let message_id := db.nextId
  let row : MessageRow :=
    ⟨message_id, sender_number, sender_name, timestamp, now, message_body,
      attachments_json, raw_data_json, group_id, group_name⟩
  let conversation_id := conversationKey group_id sender_number
  let conversation_name :=
    match group_name with
    | some g => if g.data.isEmpty then sender_name else g
    | none => sender_name
  let is_group := optTruthy group_id
  let convs := upsertConvStore db.conversations conversation_id
      conversation_name now is_group group_id
  (⟨db.messages ++ [row], convs, db.nextId + 1⟩, message_id)

/-- Database.update_conversation (db.py lines 341 to 370). -/
def update_conversation (db : DB) (contact_number : String)
    (contact_name : Option String) (last_message_at : Option Nat) : DB :=
  ⟨db.messages,
    upsertConvUpdate db.conversations contact_number contact_name last_message_at,
    db.nextId⟩

/-- The view of a stored message returned by get_messages and
get_message_by_id (db.py lines 224 to 234 and 253 to 262): the attachments
and raw_data columns are json.loads decoded once when non-empty. -/
structure MessageView where
  id : Nat
  sender_number : String
  message_body : String
  attachments : Option Json
  raw_data : Option Json

/-- Row post-processing loop of get_messages and get_message_by_id.  A
NULL column stays absent; a non-empty column is decoded exactly once.  (An
empty-string column would be left undecoded by the Python truthiness
check; store_message never writes one, and it is modelled as absent.) -/
def parse_message_row (r : MessageRow) : MessageView :=
  let att :=
    match r.attachments with
    | none => none
    | some s => if s.data.isEmpty then none else Json.parse s
  let raw :=
    match r.raw_data with
    | none => none
    | some s => if s.data.isEmpty then none else Json.parse s
  ⟨r.id, r.sender_number, r.message_body, att, raw⟩

/-- Database.get_message_by_id (db.py lines 236 to 262). -/
def get_message_by_id (db : DB) (mid : Nat) : Option MessageView :=
  (db.messages.find? (fun r => r.id == mid)).map parse_message_row

/-! Inbound event model and the normalizer, from
src/backend/signal_processor.py.  An event is the decoded JSON object of
one SSE line; the fields the normalizer reads are typed, each optional
field mirroring a dict.get with a default.  A groupInfo that is absent or
an empty dict (both falsy in Python) is modelled as none. -/

structure RawAttachment where
  contentType : Option String
  filename : Option String
  attId : Option String
  size : Option Int

structure GroupInfo where
  groupId : Option String
  groupName : Option String

structure DataMessage where
  message : Option String
  attachments : List RawAttachment
  groupInfo : Option GroupInfo

structure Envelope where
  sourceNumber : Option String
  source : Option String
  sourceName : Option String
  timestamp : Option Nat
  dataMessage : Option DataMessage

structure Event where
  envelope : Option Envelope

/-- Discriminator of signal_processor.py line 53: the event carries a
dataMessage sub-object. -/
def eventHasDataMessage (e : Event) : Bool :=
  match e.envelope with
  | some env => env.dataMessage.isSome
  | none => false

/-- Normalization of one attachment (signal_processor.py lines 73 to 79):
a dict with keys content_type, filename, id, size in that order, missing
source fields defaulting to the empty string or zero. -/
def normalizeAttachment (a : RawAttachment) : Json :=
  .obj [("content_type", .str (a.contentType.getD "")),
        ("filename", .str (a.filename.getD "")),
        ("id", .str (a.attId.getD "")),
        ("size", .num (a.size.getD 0))]

def normalizeAttachments (l : List RawAttachment) : List Json :=
  l.map normalizeAttachment

def optStrField (k : String) (v : Option String) : List (String × Json) :=
  match v with
  | some s => [(k, .str s)]
  | none => []

def RawAttachment.toJson (a : RawAttachment) : Json :=
  .obj (optStrField "contentType" a.contentType
    ++ optStrField "filename" a.filename
    ++ optStrField "id" a.attId
    ++ (match a.size with
        | some n => [("size", Json.num n)]
        | none => []))

def GroupInfo.toJson (gi : GroupInfo) : Json :=
  .obj (optStrField "groupId" gi.groupId ++ optStrField "groupName" gi.groupName)

def DataMessage.toJson (dm : DataMessage) : Json :=
  .obj (optStrField "message" dm.message
    ++ (match dm.attachments with
        | [] => []
        | l => [("attachments", Json.arr (l.map RawAttachment.toJson))])
    ++ (match dm.groupInfo with
        | none => []
        | some gi => [("groupInfo", gi.toJson)]))

def Envelope.toJson (env : Envelope) : Json :=
  .obj (optStrField "sourceNumber" env.sourceNumber
    ++ optStrField "source" env.source
    ++ optStrField "sourceName" env.sourceName
    ++ (match env.timestamp with
        | some t => [("timestamp", Json.num t)]
        | none => [])
    ++ (match env.dataMessage with
        | none => []
        | some dm => [("dataMessage", dm.toJson)]))

/-- The decoded JSON dict an Event stands for, used where the source
serializes the raw event (raw_data=json.dumps(data)). -/
def Event.toJson (e : Event) : Json :=
  .obj (match e.envelope with
    | none => []
    | some env => [("envelope", env.toJson)])

def optToJson : Option String → Json
  | some s => .str s
  | none => .null

/-- process_incoming_message (signal_processor.py lines 47 to 119).
Events without a dataMessage are dropped.  Otherwise the message is
stored (note: the normalized attachment list and the raw event are each
json.dumps serialized here, before store_message serializes them again),
then for a non-group message update_conversation is called for the
sender, and the fan-out payload is built.  The returned option is the
payload handed to the fan-out task: none means no fan-out was triggered.
now_ms stands for int(datetime.now().timestamp() * 1000); the
update_conversation timestamp is the seconds value of the message
timestamp (datetime.fromtimestamp(timestamp / 1000)).  The surrounding
try/except means no exception escapes; the embedding is total. -/
def process_incoming_message (db : DB) (data : Event) (now_ms : Nat) :
    DB × Option Json :=
  match data.envelope with
  | none => (db, none)
  | some envelope =>
    match envelope.dataMessage with
    | none => (db, none)
    | some data_message =>
      let source_number :=
        match envelope.sourceNumber with
        | some s => s
        | none => envelope.source.getD "unknown"
      let source_name := envelope.sourceName.getD ""
      let timestamp := envelope.timestamp.getD now_ms
      let message_body := data_message.message.getD ""
      let group_id := data_message.groupInfo.bind (·.groupId)
      let group_name := data_message.groupInfo.bind (·.groupName)
      let attachment_info := normalizeAttachments data_message.attachments
      let att_arg : Option Json :=
        match attachment_info with
        | [] => none
        | _ => some (.str (Json.dumps (.arr attachment_info)))
      let raw_arg : Option Json := some (.str (Json.dumps data.toJson))
      let sm := store_message db source_number source_name timestamp
          message_body att_arg raw_arg group_id group_name now_ms
      let db1 := sm.1
      let message_id := sm.2
      let db2 :=
        if optTruthy group_id then db1
        else update_conversation db1 source_number (some source_name)
            (some (timestamp / 1000))
      let webhook_data : Json :=
        .obj [("event", .str "new_message"),
              ("message_id", .num message_id),
              ("sender_number", .str source_number),
              ("sender_name", .str source_name),
              ("message_body", .str message_body),
              ("timestamp", .num timestamp),
              ("group_id", optToJson group_id),
              ("group_name", optToJson group_name),
              ("attachments", .arr attachment_info)]
      (db2, some webhook_data)

/-! SHA-256 and HMAC, the model of hashlib.sha256 and hmac.new in
compute_hmac (webhooks.py lines 17 to 23).  Bytes and 32-bit words are
naturals with explicit reduction mod 2 to the 32. -/

def M32 : Nat := 4294967296

def rotr32 (k n : Nat) : Nat := ((n >>> k) ||| (n <<< (32 - k))) % M32

def shaCh (e f g : Nat) : Nat := (e &&& f) ^^^ ((e ^^^ 4294967295) &&& g)

def shaMaj (a b c : Nat) : Nat := (a &&& b) ^^^ (a &&& c) ^^^ (b &&& c)

def bigSigma0 (x : Nat) : Nat := rotr32 2 x ^^^ rotr32 13 x ^^^ rotr32 22 x

def bigSigma1 (x : Nat) : Nat := rotr32 6 x ^^^ rotr32 11 x ^^^ rotr32 25 x

def smallSigma0 (x : Nat) : Nat := rotr32 7 x ^^^ rotr32 18 x ^^^ (x >>> 3)

def smallSigma1 (x : Nat) : Nat := rotr32 17 x ^^^ rotr32 19 x ^^^ (x >>> 10)

def shaK : List Nat :=
  [1116352408, 1899447441, 3049323471, 3921009573, 961987163, 1508970993,
   2453635748, 2870763221, 3624381080, 310598401, 607225278, 1426881987,
   1925078388, 2162078206, 2614888103, 3248222580, 3835390401, 4022224774,
   264347078, 604807628, 770255983, 1249150122, 1555081692, 1996064986,
   2554220882, 2821834349, 2952996808, 3210313671, 3336571891, 3584528711,
   113926993, 338241895, 666307205, 773529912, 1294757372, 1396182291,
   1695183700, 1986661051, 2177026350, 2456956037, 2730485921, 2820302411,
   3259730800, 3345764771, 3516065817, 3600352804, 4094571909, 275423344,
   430227734, 506948616, 659060556, 883997877, 958139571, 1322822218,
   1537002063, 1747873779, 1955562222, 2024104815, 2227730452, 2361852424,
   2428436474, 2756734187, 3204031479, 3329325298]

def shaInit : List Nat :=
  [1779033703, 3144134277, 1013904242, 2773480762, 1359893119, 2600822924,
   528734635, 1541459225]

/-- Big-endian byte decomposition of n into k bytes. -/
def toBytesBE : Nat → Nat → List Nat
  | 0, _ => []
  | k + 1, n => toBytesBE k (n / 256) ++ [n % 256]

/-- Group a byte list into big-endian 32-bit words (the byte count is a
multiple of 4 whenever this is applied). -/
def toWords : List Nat → List Nat
  | b1 :: b2 :: b3 :: b4 :: rest =>
      (((b1 * 256 + b2) * 256 + b3) * 256 + b4) :: toWords rest
  | _ => []

/-- Message-schedule extension: given the sliding window of the last 16
words, produce the next k words (accumulated in reverse). -/
def extendLoop : Nat → List Nat → List Nat → List Nat
  | 0, _, acc => acc.reverse
  | k + 1, w16 :: w15 :: w14 :: w13 :: w12 :: w11 :: w10 :: w9 :: w8
      :: w7 :: w6 :: w5 :: w4 :: w3 :: w2 :: w1 :: _, acc =>
      let w := (smallSigma1 w2 + w7 + smallSigma0 w15 + w16) % M32
      extendLoop k
        [w15, w14, w13, w12, w11, w10, w9, w8, w7, w6, w5, w4, w3, w2, w1, w]
        (w :: acc)
  | _ + 1, _, acc => acc.reverse

/-- The 64 compression rounds over (constant, schedule word) pairs. -/
def shaRounds : List (Nat × Nat) →
    Nat × Nat × Nat × Nat × Nat × Nat × Nat × Nat →
    Nat × Nat × Nat × Nat × Nat × Nat × Nat × Nat
  | [], s => s
  | (k, w) :: rest, (a, b, c, d, e, f, g, h) =>
      let t1 := (h + bigSigma1 e + shaCh e f g + k + w) % M32
      let t2 := (bigSigma0 a + shaMaj a b c) % M32
      shaRounds rest ((t1 + t2) % M32, a, b, c, (d + t1) % M32, e, f, g)

def shaCompress (state block16 : List Nat) : List Nat :=
  match state with
  | [h0, h1, h2, h3, h4, h5, h6, h7] =>
      let ws := block16 ++ extendLoop 48 block16 []
      match shaRounds (shaK.zip ws) (h0, h1, h2, h3, h4, h5, h6, h7) with
      | (a, b, c, d, e, f, g, h) =>
          [(h0 + a) % M32, (h1 + b) % M32, (h2 + c) % M32, (h3 + d) % M32,
           (h4 + e) % M32, (h5 + f) % M32, (h6 + g) % M32, (h7 + h) % M32]
  | s => s

/-- Consume the padded word stream one 16-word block at a time. -/
def shaBlocks : List Nat → List Nat → List Nat
  | state, w0 :: w1 :: w2 :: w3 :: w4 :: w5 :: w6 :: w7 :: w8 :: w9
      :: w10 :: w11 :: w12 :: w13 :: w14 :: w15 :: rest =>
      shaBlocks
        (shaCompress state
          [w0, w1, w2, w3, w4, w5, w6, w7, w8, w9, w10, w11, w12, w13, w14, w15])
        rest
  | state, _ => state

/-- SHA-256 of a byte string, as a list of 32 bytes. -/
def sha256 (msg : List Nat) : List Nat :=
  let len := msg.length
  let padded := msg ++ 0x80
      :: (List.replicate ((64 + 55 - len % 64) % 64) 0 ++ toBytesBE 8 (8 * len))
  let final := shaBlocks shaInit (toWords padded)
  final.foldr (fun w acc => toBytesBE 4 w ++ acc) []

/-- HMAC-SHA256 over byte strings (RFC 2104 with a 64-byte block). -/
def hmacSha256 (key msg : List Nat) : List Nat :=
  let k1 := if key.length > 64 then sha256 key else key
  let k2 := k1 ++ List.replicate (64 - k1.length) 0
  sha256 ((k2.map (fun b => b ^^^ 0x5c))
    ++ sha256 ((k2.map (fun b => b ^^^ 0x36)) ++ msg))

/-- UTF-8 bytes of one character, as str.encode produces. -/
def utf8Char (c : Char) : List Nat :=
  let n := c.toNat
  if n < 0x80 then [n]
  else if n < 0x800 then [0xC0 ||| (n >>> 6), 0x80 ||| (n &&& 63)]
  else if n < 0x10000 then
    [0xE0 ||| (n >>> 12), 0x80 ||| ((n >>> 6) &&& 63), 0x80 ||| (n &&& 63)]
  else
    [0xF0 ||| (n >>> 18), 0x80 ||| ((n >>> 12) &&& 63),
     0x80 ||| ((n >>> 6) &&& 63), 0x80 ||| (n &&& 63)]

def utf8Encode (s : String) : List Nat :=
  s.data.foldr (fun c acc => utf8Char c ++ acc) []

def hexDigit (n : Nat) : Char :=
  if n < 10 then Char.ofNat (48 + n) else Char.ofNat (87 + n)

/-- Lowercase hex rendering of a byte string (hexdigest). -/
def hexString (bytes : List Nat) : String :=
  String.mk (bytes.foldr (fun b acc => hexDigit (b / 16) :: hexDigit (b % 16) :: acc) [])

/-- compute_hmac (webhooks.py lines 17 to 23): hex HMAC-SHA256 of the
UTF-8 payload bytes under the UTF-8 secret bytes. -/
def compute_hmac (payload secret : String) : String :=
  hexString (hmacSha256 (utf8Encode secret) (utf8Encode payload))

/-! Webhook delivery engine, from src/backend/webhooks.py.  One delivery
attempt is an HTTP POST whose outcome is supplied by an environment
mapping the attempt number (the retry_count of that call) to what the
remote side did.  The engine leaves a trace: the POST requests issued (in
order, with the exact body and the X-Signal-HMAC header value), the
seconds slept between attempts, and the per-attempt outcome records
written to the subscription store (true for update_webhook_success, false
for update_webhook_failure; those two Database methods are not part of
src/ and are modelled as trace records). -/

inductive AttemptResult where
  | ok200
  | badStatus (code : Nat)
  | exn

structure WebhookRequest where
  body : String
  signature : String

structure DeliveryTrace where
  requests : List WebhookRequest
  sleeps : List Nat
  outcomes : List Bool

/-- Recursion core of notify_webhook_subscriber (webhooks.py lines 59 to
104).  The source recurses with retry_count + 1 while retry_count < 3, so
its depth from any entry point is at most 4; the structural fuel argument
makes that bound explicit and the wrapper below supplies fuel 4, which the
guard retry_count < 3 never exhausts.  A 200 response records success and
stops; any other status records failure and stops (the source retries
only from its except branch); an exception records failure and, while
retry_count < 3, sleeps 2 ^ retry_count seconds and retries. -/
def notifyAux (payload secret : String) (env : Nat → AttemptResult) :
    Nat → Nat → DeliveryTrace
  | _, 0 => ⟨[], [], []⟩
  | retry_count, fuel + 1 =>
      let req : WebhookRequest := ⟨payload, compute_hmac payload secret⟩
      match env retry_count with
      | .ok200 => ⟨[req], [], [true]⟩
      | .badStatus _ => ⟨[req], [], [false]⟩
      | .exn =>
          if retry_count < 3 then
            let rest := notifyAux payload secret env (retry_count + 1) fuel
            ⟨req :: rest.requests, 2 ^ retry_count :: rest.sleeps,
              false :: rest.outcomes⟩
          else ⟨[req], [], [false]⟩

/-- notify_webhook_subscriber: serialize the payload compactly, sign it,
and run the attempt loop.  (The source re-serializes the same payload on
each recursive call; json.dumps is deterministic, so serializing once is
observationally identical.) -/
def notify_webhook_subscriber (message_data : Json) (secret : String)
    (env : Nat → AttemptResult) (retry_count : Nat) : DeliveryTrace :=
  notifyAux (Json.dumps message_data) secret env retry_count 4

/-! Challenge verifier and the subscribe flow, from webhooks.py lines 26
to 56 and src/backend/routers/webhooks.py lines 28 to 80, with the
allow-list gate of src/backend/security.py lines 40 to 77. -/

/-- What the candidate endpoint did in response to the challenge POST:
none is a network-level exception or timeout; some (status, body) is a
response, whose body is none when it is not valid JSON (response.json()
raises, caught by the same except). -/
abbrev ChallengeResponse := Option (Nat × Option Json)

/-- send_webhook_challenge (webhooks.py lines 26 to 56): POST the token,
return it on a 200 response whose JSON body has a challenge field equal
to the token, and none otherwise (all exceptions are caught). -/
def send_webhook_challenge (challenge : String) (resp : ChallengeResponse) :
    Option String :=
  match resp with
  | none => none
  | some (status, body) =>
      if status = 200 then
        match body with
        | none => none
        | some data =>
            if pyEqStr (data.get? "challenge") challenge then some challenge
            else none
      else none

/-- A callback URL together with the hostname urlparse extracts from it
(none when the URL has no host part). -/
structure CallbackUrl where
  url : String
  hostname : Option String

/-- One dotted-quad octet as ipaddress.ip_address accepts it: decimal
digits only, no leading zero, at most 255. -/
def parseOctet (cs : List Char) : Option Nat :=
  if cs.isEmpty then none
  else if !cs.all (·.isDigit) then none
  else if cs.length > 1 && cs.headD '0' = '0' then none
  else
    let n := digitsToNat cs
    if n ≤ 255 then some n else none

def splitOnDot : List Char → List (List Char)
  | [] => [[]]
  | c :: rest =>
      if c = '.' then [] :: splitOnDot rest
      else
        match splitOnDot rest with
        | g :: gs => (c :: g) :: gs
        | [] => [[c]]

/-- IPv4 parsing, the model of ipaddress.ip_address for dotted-quad
strings.  (IPv6 textual forms are not modelled: a hostname that is not a
dotted quad is treated like a domain name, which only matches the
allow-list textually.) -/
def parseIPv4 (s : String) : Option (Nat × Nat × Nat × Nat) :=
  match splitOnDot s.data with
  | [a, b, c, d] =>
      match parseOctet a, parseOctet b, parseOctet c, parseOctet d with
      | some x, some y, some z, some w => some (x, y, z, w)
      | _, _, _, _ => none
  | _ => none

/-- is_private_network_url (security.py lines 40 to 77): the hostname must
be textually in the allow-list, or parse as an IP address equal to some
allow-list entry that itself parses as an IP address. -/
def is_private_network_url (whitelist : List String) (cb : CallbackUrl) : Bool :=
  match cb.hostname with
  | none => false
  | some h =>
      if whitelist.contains h then true
      else
        match parseIPv4 h with
        | some ip =>
            whitelist.any (fun w =>
              match parseIPv4 w with
              | some wip => ip = wip
              | none => false)
        | none => false

/-- A row of the webhook subscription store (delivery counters omitted;
they live behind the Database methods that are not part of src/). -/
structure Subscription where
  id : Nat
  callback_url : String
  secret : String
  enabled : Bool

/-- Modelled from the spec: db.add_webhook_subscription is declared
nowhere under src/ (only called).  Per the data model of the spec, it
creates one enabled subscription row for the callback URL and returns its
identifier. -/
def add_webhook_subscription (store : List Subscription)
    (url secret : String) : List Subscription × Nat :=
  let subId := store.length + 1
  (store ++ [⟨subId, url, secret, true⟩], subId)

structure SubscribeResult where
  status : Except Nat Nat
  store : List Subscription
  network_calls : List String

/-- subscribe_webhook (routers/webhooks.py lines 28 to 80): reject with
403 before any network traffic when the allow-list gate fails; otherwise
POST the challenge to the callback URL, reject with 400 when verification
fails, and only then add the subscription.  network_calls lists the URLs
POSTed to, in order. -/
def subscribe_webhook (whitelist : List String) (cb : CallbackUrl)
    (secret token : String) (resp : ChallengeResponse)
    (store : List Subscription) : SubscribeResult :=
  if is_private_network_url whitelist cb then
    match send_webhook_challenge token resp with
    | none => ⟨.error 400, store, [cb.url]⟩
    | some _ =>
        let added := add_webhook_subscription store cb.url secret
        ⟨.ok added.2, added.1, [cb.url]⟩
  else ⟨.error 403, store, []⟩

/-- Definition following the words of the spec (for comparison with the
source flow): challenge verification succeeds exactly when the endpoint
answers HTTP 200 with a JSON body whose challenge field equals the token
sent. -/
def challenge_ok_spec (token : String) (resp : ChallengeResponse) : Bool :=
  match resp with
  | some (status, some body) => status == 200 && pyEqStr (body.get? "challenge") token
  | _ => false

/-! Outbound send, from src/backend/routers/messages.py lines 27 to 90.
The transport call and the database storage are the two effects; each is
passed in as its outcome, since both talk to the outside world (and in
this source tree the storage call always raises: it passes a
recipient_number keyword argument that Database.store_message does not
accept).  The inner try/except around storage is the subject of claim C7:
a storage exception is logged and the response is still a success. -/

structure SendMessageResult where
  success : Bool
  recipient : String
  message_id : Option Nat

/-- send_message (routers/messages.py lines 28 to 90): a transport error
propagates as HTTP 500; after a successful transport send, storage is
attempted and its failure is swallowed, the response reporting success
with message_id only when storage succeeded. -/
def send_message (recipient : String) (transport : Except String Unit)
    (storeOutcome : Except String Nat) : Except Nat SendMessageResult :=
  match transport with
  | .error _ => .error 500
  | .ok _ =>
      match storeOutcome with
      | .ok mid => .ok ⟨true, recipient, some mid⟩
      | .error _ => .ok ⟨true, recipient, none⟩

/-- Whether a subscribe outcome is an accepted (2xx) response rather than
a raised HTTPException. -/
def isAccepted : Except Nat Nat → Bool
  | .ok _ => true
  | .error _ => false

/-! Concrete fixtures used by the witnesses and counterexamples below. -/

/-- The inbound scenario event of the spec: sourceNumber +15551234567,
timestamp 1000, dataMessage with body hi, no group, no attachments. -/
def c1_event : Event :=
  ⟨some ⟨some "+15551234567", none, none, some 1000, some ⟨some "hi", [], none⟩⟩⟩

/-- An inbound event whose envelope has no dataMessage (a receipt). -/
def c9_event : Event :=
  ⟨some ⟨some "+15551230000", none, none, some 77, none⟩⟩

def c10_attachment : RawAttachment :=
  ⟨some "image/jpeg", some "cat.jpg", some "a1", some 512⟩

def c10_dm : DataMessage := ⟨some "pic", [c10_attachment], none⟩

def c10_env : Envelope :=
  ⟨some "+15557654321", none, some "Ann", some 2000, some c10_dm⟩

def c10_event : Event := ⟨some c10_env⟩

/-- An endpoint failing with a network-level exception on every attempt. -/
def envAllExn : Nat → AttemptResult := fun _ => .exn

/-- An endpoint answering HTTP 500 on every attempt. -/
def envAllBad : Nat → AttemptResult := fun _ => .badStatus 500

/-- An endpoint answering HTTP 503 on the first attempt and HTTP 200 on
any later one. -/
def envBadThenOk : Nat → AttemptResult :=
  fun n => if n = 0 then .badStatus 503 else .ok200

def c4_whitelist : List String := ["192.168.1.50"]

def c4_cb : CallbackUrl := ⟨"http://192.168.1.50:9000/hook", some "192.168.1.50"⟩

def c4_resp : ChallengeResponse :=
  some (200, some (Json.obj [("challenge", Json.str "tok123")]))

def c8_whitelist : List String := ["192.168.1.50", "controller.internal"]

def c8_cb : CallbackUrl := ⟨"http://203.0.113.9/hook", some "203.0.113.9"⟩

/-- A database having one existing individual conversation row. -/
def c6_db : DB :=
  ⟨[], [⟨"+15550009999", some "Bob", some 1, 3, false, none⟩], 5⟩

/-! Helper lemmas. -/

theorem string_data_mk (l : List Char) : (String.mk l).data = l := rfl

theorem string_mk_data (s : String) : String.mk s.data = s := rfl

/-- The string-body parser inverts the dumps escaping. -/
theorem parseStringBody_escape (s rest : List Char) :
    parseStringBody (escapeList s ++ '"' :: rest) = some (s, rest) := by
  induction s with
  | nil =>
      show parseStringBody ('"' :: rest) = _
      rw [parseStringBody.eq_def]
      simp
  | cons c cs ih =>
      rw [show escapeList (c :: cs) = escapeChar c ++ escapeList cs from rfl,
        List.append_assoc]
      by_cases h1 : c = '"'
      · subst h1
        simp only [escapeChar, if_pos rfl, List.cons_append, List.nil_append]
        rw [parseStringBody.eq_def]
        simp [unescapeChar, ih]
      · by_cases h2 : c = '\\'
        · subst h2
          simp only [escapeChar, reduceIte, List.cons_append, List.nil_append]
          rw [parseStringBody.eq_def]
          simp [unescapeChar, ih]
        · by_cases h3 : c = '\n'
          · subst h3
            simp only [escapeChar, reduceIte, List.cons_append, List.nil_append]
            rw [parseStringBody.eq_def]
            simp [unescapeChar, ih]
          · by_cases h4 : c = '\t'
            · subst h4
              simp only [escapeChar, reduceIte, List.cons_append, List.nil_append]
              rw [parseStringBody.eq_def]
              simp [unescapeChar, ih]
            · by_cases h5 : c = '\r'
              · subst h5
                simp only [escapeChar, reduceIte, List.cons_append, List.nil_append]
                rw [parseStringBody.eq_def]
                simp [unescapeChar, ih]
              · simp only [escapeChar, h1, h2, h3, h4, h5, if_neg,
                  List.cons_append, List.nil_append, ite_false]
                rw [parseStringBody.eq_def]
                simp [h1, h2, ih]

theorem parseVal_quote (fuel : Nat) (l rest : List Char) :
    parseVal (fuel + 1) ('"' :: (escapeList l ++ '"' :: rest)) =
      some (.str (String.mk l), rest) := by
  simp [parseVal, parseStringBody_escape]

/-- Decoding once undoes one level of string encoding: json.loads of
json.dumps of a string is that string. -/
theorem json_parse_dumps_str (s : String) :
    Json.parse (Json.dumps (.str s)) = some (.str s) := by
  have hdata : (Json.dumps (Json.str s)).data = '"' :: (escapeList s.data ++ ['"']) := rfl
  unfold Json.parse
  rw [hdata]
  simp only [List.length_cons]
  rw [show (escapeList s.data ++ ['"']) = (escapeList s.data ++ '"' :: []) from rfl,
    parseVal_quote]

theorem dumps_arr_truthy (xs : List Json) :
    (Json.str (Json.dumps (Json.arr xs))).truthy = true := by
  simp [Json.truthy, Json.dumps, Json.dumpsData]

theorem dumps_obj_truthy (fs : List (String × Json)) :
    (Json.str (Json.dumps (Json.obj fs))).truthy = true := by
  simp [Json.truthy, Json.dumps, Json.dumpsData]

theorem dumps_str_data_ne_nil (v : Json) :
    (Json.dumps (Json.str (Json.dumps v))).data.isEmpty = false := by
  simp [Json.dumps, Json.dumpsData]

/-- After the store_message upsert, the touched row carries exactly the
incoming group flag. -/
theorem findConv_upsertStore (convs : List ConversationRow) (cid cname : String)
    (now : Nat) (isg : Bool) (gid : Option String) :
    (findConv (upsertConvStore convs cid cname now isg gid) cid).map (·.is_group)
      = some isg := by
  induction convs with
  | nil => simp [upsertConvStore, findConv]
  | cons c cs ih =>
      by_cases h : c.contact_number = cid
      · simp [upsertConvStore, findConv, h]
      · simp [upsertConvStore, findConv, h, ih]

/-- The update_conversation upsert leaves the group flag of an existing
row unchanged. -/
theorem findConv_upsertUpdate (convs : List ConversationRow) (cid : String)
    (cn : Option String) (lma : Option Nat)
    (h : (findConv convs cid).isSome = true) :
    (findConv (upsertConvUpdate convs cid cn lma) cid).map (·.is_group)
      = (findConv convs cid).map (·.is_group) := by
  induction convs with
  | nil => simp [findConv] at h
  | cons c cs ih =>
      by_cases hc : c.contact_number = cid
      · simp [upsertConvUpdate, findConv, hc]
      · simp [findConv, hc] at h
        simp [upsertConvUpdate, findConv, hc, ih h]

/-- Every request in a delivery trace is signed with the HMAC of its own
body under the subscriber secret. -/
theorem notifyAux_requests_signed (p s : String) (env : Nat → AttemptResult)
    (fuel rc : Nat) :
    ((notifyAux p s env rc fuel).requests.all
      (fun r => r.signature == compute_hmac r.body s)) = true := by
  induction fuel generalizing rc with
  | zero => simp [notifyAux]
  | succ f ih =>
      cases h : env rc with
      | ok200 => simp [notifyAux, h]
      | badStatus code => simp [notifyAux, h]
      | exn =>
          by_cases hrc : rc < 3
          · simp [notifyAux, h, hrc, ih]
          · simp [notifyAux, h, hrc]

/-- The source challenge check succeeds exactly under the condition the
spec words state. -/
theorem challenge_isSome_iff_spec (token : String) (resp : ChallengeResponse) :
    (send_webhook_challenge token resp).isSome = challenge_ok_spec token resp := by
  match resp with
  | none => rfl
  | some (status, none) =>
      by_cases h : status = 200 <;>
        simp [send_webhook_challenge, challenge_ok_spec, h]
  | some (status, some body) =>
      by_cases h : status = 200
      · subst h
        by_cases h2 : pyEqStr (body.get? "challenge") token <;>
          simp [send_webhook_challenge, challenge_ok_spec, h2]
      · simp [send_webhook_challenge, challenge_ok_spec, h]

/-! The claims. -/

/-- Claim C1 (code bug): on the spec scenario event (dataMessage, no
group identifier) the code stores exactly one Message row but raises the
conversation message_count to 2, not 1: the store_message upsert adds 1
and then process_incoming_message calls update_conversation, which adds 1
again.  The claim that the count increases by exactly 1 is what the code
intends (update_conversation itself notes the upsert is already handled
inside store_message) but not what it does. -/
theorem c1_double_count :
    (process_incoming_message emptyDB c1_event 0).1.messages.length = 1
    ∧ message_count_of (process_incoming_message emptyDB c1_event 0).1
        "+15551234567" = some 2 := by
  decide

/-- Claim C2 counterexample: for an endpoint failing with an exception on
every attempt, the inter-attempt delays are 1, 2 and 4 seconds (sleep of
2 to the retry_count with retry_count starting at 0), not the claimed
0, 2 and 4 seconds. -/
theorem c2_claim_false :
    (notify_webhook_subscriber (Json.obj []) "s" envAllExn 0).sleeps = [1, 2, 4]
    ∧ ¬ (notify_webhook_subscriber (Json.obj []) "s" envAllExn 0).sleeps = [0, 2, 4]
    ∧ (notify_webhook_subscriber (Json.obj []) "s" envAllExn 0).requests.length = 4 := by
  decide

/-- Claim C2 as amended: an endpoint failing with a network-level
exception on every attempt receives exactly 4 POSTs with inter-attempt
delays of 1, 2 and 4 seconds; an endpoint answering a non-200 status on
every attempt receives exactly 1 POST and no delay, because a non-200
response is not retried. -/
theorem c2_retry_behaviour (data : Json) (secret : String)
    (envE envB : Nat → AttemptResult) (code : Nat)
    (hE : ∀ n, envE n = .exn) (hB : ∀ n, envB n = .badStatus code) :
    (notify_webhook_subscriber data secret envE 0).requests.length = 4
    ∧ (notify_webhook_subscriber data secret envE 0).sleeps = [1, 2, 4]
    ∧ (notify_webhook_subscriber data secret envB 0).requests.length = 1
    ∧ (notify_webhook_subscriber data secret envB 0).sleeps = [] := by
  simp [notify_webhook_subscriber, notifyAux, hE, hB]

/-- Witness for C2 at concrete environments. -/
theorem c2_retry_witness :
    (notify_webhook_subscriber (Json.obj []) "s2" envAllExn 0).requests.length = 4
    ∧ (notify_webhook_subscriber (Json.obj []) "s2" envAllExn 0).sleeps = [1, 2, 4]
    ∧ (notify_webhook_subscriber (Json.obj []) "s2" envAllBad 0).requests.length = 1
    ∧ (notify_webhook_subscriber (Json.obj []) "s2" envAllBad 0).sleeps = [] :=
  c2_retry_behaviour (Json.obj []) "s2" envAllExn envAllBad 500
    (fun _ => rfl) (fun _ => rfl)

/-- Claim C3 counterexample: a non-200 response on the first attempt
(attempt count 0 < 3) records a failure but is never retried: exactly one
POST, no backoff sleep, one failure record.  The claim says a non-200
response below the attempt limit leads to a retry. -/
theorem c3_claim_false :
    (notify_webhook_subscriber (Json.obj []) "k" envBadThenOk 0).requests.length = 1
    ∧ (notify_webhook_subscriber (Json.obj []) "k" envBadThenOk 0).sleeps = []
    ∧ (notify_webhook_subscriber (Json.obj []) "k" envBadThenOk 0).outcomes = [false] := by
  decide

/-- Claim C3 as amended: a non-200 response records a failure on the
subscription and stops without any retry; only a network-level exception
triggers the backoff retry, which with attempt count below 3 sleeps 2 to
the attempt count seconds and recurses with attempt count plus 1. -/
theorem c3_non200_behaviour (data : Json) (secret : String)
    (env : Nat → AttemptResult) (rc fuel code : Nat) :
    (env rc = .badStatus code →
      notifyAux (Json.dumps data) secret env rc (fuel + 1) =
        ⟨[⟨Json.dumps data, compute_hmac (Json.dumps data) secret⟩], [], [false]⟩)
    ∧ (env rc = .exn → rc < 3 →
      notifyAux (Json.dumps data) secret env rc (fuel + 1) =
        ⟨⟨Json.dumps data, compute_hmac (Json.dumps data) secret⟩ ::
            (notifyAux (Json.dumps data) secret env (rc + 1) fuel).requests,
          2 ^ rc :: (notifyAux (Json.dumps data) secret env (rc + 1) fuel).sleeps,
          false :: (notifyAux (Json.dumps data) secret env (rc + 1) fuel).outcomes⟩) := by
  constructor
  · intro h
    simp [notifyAux, h]
  · intro h hrc
    simp [notifyAux, h, hrc]

/-- Witness for C3 at a concrete environment. -/
theorem c3_witness :
    envAllBad 0 = .badStatus 500
    ∧ notifyAux (Json.dumps (Json.obj [])) "sec" envAllBad 0 4 =
        ⟨[⟨Json.dumps (Json.obj []), compute_hmac (Json.dumps (Json.obj [])) "sec"⟩],
          [], [false]⟩ :=
  ⟨rfl, (c3_non200_behaviour (Json.obj []) "sec" envAllBad 0 3 500).1 rfl⟩

/-- Claim C5: every POST request a delivery trace contains carries an
X-Signal-HMAC value equal to the hex HMAC-SHA256 of exactly the body
bytes sent, under the subscriber secret: recomputing the HMAC over the
delivered body always reproduces the header. -/
theorem c5_hmac_header (message_data : Json) (secret : String)
    (env : Nat → AttemptResult) (retry_count : Nat) :
    ((notify_webhook_subscriber message_data secret env retry_count).requests.all
      (fun r => r.signature == compute_hmac r.body secret)) = true :=
  notifyAux_requests_signed (Json.dumps message_data) secret env 4 retry_count

/-- Claim C6 counterexample: a group message creates a conversation row
keyed by the group identifier with the group flag true; a later
store_message whose sender identifier equals that key and which carries
no group identifier overwrites the flag with false (the upsert sets
is_group to the excluded value). -/
theorem c6_flag_claim_false :
    is_group_of (store_message emptyDB "+4915550001" "alice" 1000 "hello"
        none none (some "GROUPIDAAA") (some "friends") 50).1 "GROUPIDAAA" = some true
    ∧ is_group_of (store_message (store_message emptyDB "+4915550001" "alice" 1000
        "hello" none none (some "GROUPIDAAA") (some "friends") 50).1
        "GROUPIDAAA" "bob" 2000 "hey" none none none none 60).1 "GROUPIDAAA"
      = some false := by
  decide

/-- Claim C6 as amended: store_message sets the group flag of the row it
touches to exactly the group status of the incoming message, so a later
non-group store_message under the same peer identifier resets a true flag
to false; update_conversation never changes the flag of an existing
row. -/
theorem c6_flag_behaviour (db : DB) (sn snm : String) (ts : Nat) (body : String)
    (att raw : Option Json) (gid gnm : Option String) (now : Nat)
    (key : String) (cn : Option String) (lma : Option Nat)
    (h : convExists db key = true) :
    is_group_of (store_message db sn snm ts body att raw gid gnm now).1
        (conversationKey gid sn) = some (optTruthy gid)
    ∧ is_group_of (update_conversation db key cn lma) key = is_group_of db key := by
  constructor
  · simp [store_message, is_group_of, findConv_upsertStore]
  · have hs : (findConv db.conversations key).isSome = true := by
      simpa [convExists] using h
    simp [update_conversation, is_group_of, findConv_upsertUpdate _ _ _ _ hs]

/-- Witness for C6 on a database with one existing conversation row. -/
theorem c6_flag_witness :
    convExists c6_db "+15550009999" = true
    ∧ (is_group_of (store_message c6_db "+4910" "" 7 "m" none none
          (some "G7") none 9).1 (conversationKey (some "G7") "+4910")
        = some (optTruthy (some "G7"))
      ∧ is_group_of (update_conversation c6_db "+15550009999" (some "Eve") (some 8))
          "+15550009999" = is_group_of c6_db "+15550009999") :=
  ⟨by decide,
    c6_flag_behaviour c6_db "+4910" "" 7 "m" none none (some "G7") none 9
      "+15550009999" (some "Eve") (some 8) (by decide)⟩

/-- Claim C7: when the transport send succeeds, send_message answers a
success response whatever the storage outcome is; a storage exception is
swallowed by the inner try/except and only clears the message_id. -/
theorem c7_send_reports_success (recipient : String)
    (storeOutcome : Except String Nat) :
    ∃ r, send_message recipient (.ok ()) storeOutcome = .ok r
      ∧ r.success = true ∧ r.recipient = recipient := by
  cases storeOutcome with
  | ok mid => exact ⟨_, rfl, rfl, rfl⟩
  | error e => exact ⟨_, rfl, rfl, rfl⟩

/-- Claim C8: when the allow-list gate fails for the callback URL host,
subscribe_webhook answers 403, leaves the subscription store unchanged
and issues no network call at all (in particular no challenge POST to the
URL). -/
theorem c8_reject_before_network (wl : List String) (cb : CallbackUrl)
    (secret token : String) (resp : ChallengeResponse)
    (store : List Subscription)
    (h : is_private_network_url wl cb = false) :
    subscribe_webhook wl cb secret token resp store = ⟨.error 403, store, []⟩ := by
  simp [subscribe_webhook, h]

/-- Witness for C8 at a host outside the allow-list. -/
theorem c8_witness :
    is_private_network_url c8_whitelist c8_cb = false
    ∧ subscribe_webhook c8_whitelist c8_cb "s" "t" none [] =
        ⟨.error 403, [], []⟩ :=
  ⟨by decide, c8_reject_before_network c8_whitelist c8_cb "s" "t" none [] (by decide)⟩

/-- Claim C9: an inbound event whose envelope lacks a dataMessage is
dropped: the database is returned unchanged and no fan-out payload is
produced (the embedding is total, so no error is raised either). -/
theorem c9_skip_non_data (db : DB) (e : Event) (now_ms : Nat)
    (h : eventHasDataMessage e = false) :
    process_incoming_message db e now_ms = (db, none) := by
  match e with
  | ⟨none⟩ => rfl
  | ⟨some env⟩ =>
      match henv : env.dataMessage with
      | none =>
          simp [process_incoming_message, henv]
      | some dm =>
          exfalso
          rw [show eventHasDataMessage ⟨some env⟩ = env.dataMessage.isSome from rfl,
            henv] at h
          exact Bool.noConfusion h

/-- Witness for C9 on a receipt-style event. -/
theorem c9_witness :
    eventHasDataMessage c9_event = false
    ∧ process_incoming_message emptyDB c9_event 77 = (emptyDB, none) :=
  ⟨by decide, c9_skip_non_data emptyDB c9_event 77 (by decide)⟩

/-- Claim C4: once the allow-list gate has passed, the subscribe call is
accepted exactly when the endpoint answers the challenge POST with HTTP
200 and a JSON body whose challenge field equals the token sent; on any
deviation the call is rejected and the subscription store is returned
unchanged. -/
theorem c4_challenge_iff (wl : List String) (cb : CallbackUrl)
    (secret token : String) (resp : ChallengeResponse)
    (store : List Subscription)
    (hGate : is_private_network_url wl cb = true) :
    isAccepted (subscribe_webhook wl cb secret token resp store).status
      = challenge_ok_spec token resp
    ∧ (challenge_ok_spec token resp = false →
        (subscribe_webhook wl cb secret token resp store).store = store) := by
  have hspec := challenge_isSome_iff_spec token resp
  cases hch : send_webhook_challenge token resp with
  | none =>
      rw [hch] at hspec
      simp only [Option.isSome_none] at hspec
      constructor
      · simp [subscribe_webhook, hGate, hch, isAccepted, ← hspec]
      · intro _
        simp [subscribe_webhook, hGate, hch]
  | some tk =>
      rw [hch] at hspec
      simp only [Option.isSome_some] at hspec
      constructor
      · simp [subscribe_webhook, hGate, hch, isAccepted, ← hspec]
      · intro hfalse
        rw [← hspec] at hfalse
        exact Bool.noConfusion hfalse

/-- Witness for C4 at a passing gate and a correct challenge echo. -/
theorem c4_witness :
    is_private_network_url c4_whitelist c4_cb = true
    ∧ (isAccepted (subscribe_webhook c4_whitelist c4_cb "sec" "tok123" c4_resp []).status
        = challenge_ok_spec "tok123" c4_resp
      ∧ (challenge_ok_spec "tok123" c4_resp = false →
          (subscribe_webhook c4_whitelist c4_cb "sec" "tok123" c4_resp []).store = [])) :=
  ⟨by decide, c4_challenge_iff c4_whitelist c4_cb "sec" "tok123" c4_resp [] (by decide)⟩

theorem jsonDumpsOpt_str_dumps (v : Json)
    (hv : (Json.str (Json.dumps v)).truthy = true) :
    jsonDumpsOpt (some (.str (Json.dumps v))) =
      some (Json.dumps (.str (Json.dumps v))) := by
  simp [jsonDumpsOpt, hv]

theorem parse_view_attachments (r : MessageRow) (t : String)
    (h : r.attachments = some (Json.dumps (Json.str t))) :
    (parse_message_row r).attachments = some (Json.str t) := by
  simp [parse_message_row, h, json_parse_dumps_str,
    show (Json.dumps (Json.str t)).data.isEmpty = false from rfl]

theorem parse_view_raw (r : MessageRow) (t : String)
    (h : r.raw_data = some (Json.dumps (Json.str t))) :
    (parse_message_row r).raw_data = some (Json.str t) := by
  simp [parse_message_row, h, json_parse_dumps_str,
    show (Json.dumps (Json.str t)).data.isEmpty = false from rfl]

/-- Claim C10: on an inbound data message with at least one attachment,
the ingestion path serializes the normalized attachment list once and
store_message serializes it again, so the stored attachments column is a
doubly JSON-encoded value; the raw event is doubly encoded the same way;
and the read path (get_messages and get_message_by_id decode once)
returns each field as a JSON string, not as the underlying list or
object. -/
theorem c10_double_encoding (db : DB) (e : Event) (env : Envelope)
    (dm : DataMessage) (now_ms : Nat)
    (h1 : e.envelope = some env) (h2 : env.dataMessage = some dm)
    (h3 : (normalizeAttachments dm.attachments).isEmpty = false) :
    ∃ row : MessageRow,
      (process_incoming_message db e now_ms).1.messages = db.messages ++ [row]
      ∧ row.attachments = some (Json.dumps (.str (Json.dumps
          (.arr (normalizeAttachments dm.attachments)))))
      ∧ row.raw_data = some (Json.dumps (.str (Json.dumps e.toJson)))
      ∧ (parse_message_row row).attachments = some (.str (Json.dumps
          (.arr (normalizeAttachments dm.attachments))))
      ∧ (parse_message_row row).raw_data = some (.str (Json.dumps e.toJson)) := by
  obtain ⟨envl⟩ := e
  have h1' : envl = some env := h1
  subst h1'
  cases hatt : normalizeAttachments dm.attachments with
  | nil => rw [hatt] at h3; exact absurd h3 (by simp)
  | cons a as =>
      by_cases hg : optTruthy (dm.groupInfo.bind fun x => x.groupId)
      · simp only [process_incoming_message, h2, hatt, hg, store_message,
          update_conversation, if_true, ite_true]
        refine ⟨_, rfl, ?_, ?_, ?_, ?_⟩
        · exact jsonDumpsOpt_str_dumps _ (dumps_arr_truthy _)
        · exact jsonDumpsOpt_str_dumps _ (dumps_obj_truthy _)
        · exact parse_view_attachments _ _ (jsonDumpsOpt_str_dumps _ (dumps_arr_truthy _))
        · exact parse_view_raw _ _ (jsonDumpsOpt_str_dumps _ (dumps_obj_truthy _))
      · simp only [process_incoming_message, h2, hatt, hg, store_message,
          update_conversation, if_false, ite_false]
        refine ⟨_, rfl, ?_, ?_, ?_, ?_⟩
        · exact jsonDumpsOpt_str_dumps _ (dumps_arr_truthy _)
        · exact jsonDumpsOpt_str_dumps _ (dumps_obj_truthy _)
        · exact parse_view_attachments _ _ (jsonDumpsOpt_str_dumps _ (dumps_arr_truthy _))
        · exact parse_view_raw _ _ (jsonDumpsOpt_str_dumps _ (dumps_obj_truthy _))

/-- Witness for C10 on a concrete event with one attachment. -/
theorem c10_witness :
    (c10_event.envelope = some c10_env
      ∧ c10_env.dataMessage = some c10_dm
      ∧ (normalizeAttachments c10_dm.attachments).isEmpty = false)
    ∧ ∃ row : MessageRow,
        (process_incoming_message emptyDB c10_event 3).1.messages
          = emptyDB.messages ++ [row]
        ∧ row.attachments = some (Json.dumps (.str (Json.dumps
            (.arr (normalizeAttachments c10_dm.attachments)))))
        ∧ row.raw_data = some (Json.dumps (.str (Json.dumps c10_event.toJson)))
        ∧ (parse_message_row row).attachments = some (.str (Json.dumps
            (.arr (normalizeAttachments c10_dm.attachments))))
        ∧ (parse_message_row row).raw_data
            = some (.str (Json.dumps c10_event.toJson)) :=
  ⟨⟨rfl, rfl, by decide⟩,
    c10_double_encoding emptyDB c10_event c10_env c10_dm 3 rfl rfl (by decide)⟩

end SignalController
